import Mathlib

/-!
# Verification of the Azure-IoT-Simulation repository

Shallow embedding, in Lean 4, of the state machines and algorithms of the
device-fleet simulator:

* the OTA firmware-update flow (`handleOTAUpdate` in
  `nodeSim/multi-device-simulator.js`, `nodeSim/DPS_iotHub_sim.js` and the
  MQTT fleet variant) together with the status reports it issues;
* the send paths gated by the `isConnected` flag (`sendTelemetry`,
  `sendFirmwareStatus`);
* the DPS assignment polling loop (`pollDPSAssignment` in
  `esp32Sim/azure_helper.cpp`);
* the SAS-token expiry bookkeeping (`azureSASTokenGenerator` in
  `esp32Sim/azure_helper.h`), with `uint32_t` arithmetic made explicit as
  `Nat` modulo `2 ^ 32`;
* the coordinated-shutdown timing of the fleet orchestrators
  (`gracefulShutdown` in the MQTT fleet variant and
  `MultiDeviceSimulator.shutdown` in `multi-device-simulator.js`);
* the key-derivation function `deriveDeviceKey` (Node and ESP32 variants),
  over executable models of SHA-256, HMAC-SHA256, UTF-8 and base64.

Asynchronous JavaScript is embedded by making every suspension point
explicit: the outcome of each awaited network operation (firmware download,
message send, poll response) is passed in as data, and functions return the
successor state together with the observable events (status reports,
transmitted messages) they produce, in order.
-/

namespace AzureIoTSim

set_option maxRecDepth 4000

/-! ## Basic machine-arithmetic helpers -/

/-- `2 ^ 32`, the modulus of `uint32_t` arithmetic on the ESP32 target. -/
def UINT32_MOD : Nat := 4294967296

/-- Truncation to a 32-bit word. -/
def w32 (n : Nat) : Nat := n % UINT32_MOD

/-! ## Device state and status reports

`SimulatedDevice` carries the mutable fields of the `SimulatedDevice` class
of `nodeSim/multi-device-simulator.js` that the claims inspect:
`currentFirmwareVersion`, `isConnected`, `telemetryCount`, `errorCount`.
(The closure-per-device MQTT variant in the unnamed fleet file keeps the
same four variables; `client`, timers and timestamps are connection plumbing
not consulted by any claim.) -/

/-- The arguments of one call to `sendFirmwareStatus` /
`reportFirmwareStatus`: a status string, an optional target version and an
optional error message. -/
structure StatusReport where
  status : String
  target : Option String
  errMsg : Option String
  deriving DecidableEq, Repr

/-- Mutable per-device state of the simulator. -/
structure SimulatedDevice where
  currentFirmwareVersion : String
  isConnected : Bool
  telemetryCount : Nat
  errorCount : Nat
  deriving DecidableEq, Repr

/-- A device freshly constructed with firmware `1.0.0` and an open
connection, used as the concrete instance in witnesses and
counterexamples. -/
def dev0 : SimulatedDevice :=
  { currentFirmwareVersion := "1.0.0", isConnected := true
    telemetryCount := 0, errorCount := 0 }

/-- A device whose connection has dropped (`isConnected = false`). -/
def devDisconnected : SimulatedDevice :=
  { currentFirmwareVersion := "1.0.0", isConnected := false
    telemetryCount := 0, errorCount := 0 }

/-! ## OTA firmware update (`handleOTAUpdate`) -/

/-- `installFirmware(filePath, targetVersion)`: the simulated installation
waits a fixed delay, then sets `currentFirmwareVersion = targetVersion`;
clean-up of the downloaded artifact is best-effort and its failure is caught
inside `installFirmware`, so the function itself never throws. -/
def installFirmware (d : SimulatedDevice) (targetVersion : String) :
    SimulatedDevice :=
  { d with currentFirmwareVersion := targetVersion }

/-- One call to `SimulatedDevice.handleOTAUpdate({version, url})` of
`multi-device-simulator.js` (the `DPS_iotHub_sim.js` copy is identical up to
the error counter). `download` is the outcome of the awaited
`downloadFirmware` promise: `.ok` on HTTP 200 with a finished stream,
`.error msg` on a non-200 status or a stream error. Returns the successor
device state, the sequence of `sendFirmwareStatus` calls issued (in order),
and the list of URLs a download was started for. -/
def handleOTAUpdate (d : SimulatedDevice) (version url : String)
    (download : Except String Unit) :
    SimulatedDevice × List StatusReport × List String :=
  if version = d.currentFirmwareVersion then
    -- "Already running firmware version ..." — log only, no status report
    (d, [], [])
  else
    -- sendFirmwareStatus('downloading', version), then await downloadFirmware
    let rep0 : List StatusReport := [⟨"downloading", some version, none⟩]
    match download with
    | .ok _ =>
        -- sendFirmwareStatus('installing', version); await installFirmware;
        -- sendFirmwareStatus('completed', version)
        (installFirmware d version,
          rep0 ++ [⟨"installing", some version, none⟩,
                   ⟨"completed", some version, none⟩],
          [url])
    | .error e =>
        -- catch: sendFirmwareStatus('failed', version, error.message); errorCount++
        ({ d with errorCount := d.errorCount + 1 },
          rep0 ++ [⟨"failed", some version, some e⟩],
          [url])

/-- One call to the MQTT fleet variant's `handleOTAUpdate` (unnamed fleet
file): identical control flow, except that the equal-version guard reports
`current` through `reportFirmwareStatus`, and the failure path's error
counting happens inside `logError`. -/
def handleOTAUpdateMqtt (d : SimulatedDevice) (version url : String)
    (download : Except String Unit) :
    SimulatedDevice × List StatusReport × List String :=
  if version = d.currentFirmwareVersion then
    (d, [⟨"current", some version, none⟩], [])
  else
    let rep0 : List StatusReport := [⟨"downloading", some version, none⟩]
    match download with
    | .ok _ =>
        (installFirmware d version,
          rep0 ++ [⟨"installing", some version, none⟩,
                   ⟨"completed", some version, none⟩],
          [url])
    | .error e =>
        ({ d with errorCount := d.errorCount + 1 },
          rep0 ++ [⟨"failed", some version, some e⟩],
          [url])

/-! ## Interleaving of concurrent OTA jobs

`handleOTAUpdate` is an `async` function: it suspends at `await
downloadFirmware(...)` and `await installFirmware(...)`, and the event loop
may run another invocation at those points. `JobCont` is the continuation of
one in-flight invocation, cut at exactly those suspension points, and
`otaStep` runs one segment. The device state (the only shared data) is
threaded through; note that `SimulatedDevice` stores no job flag at all. -/

/-- The continuation of one in-flight `handleOTAUpdate` invocation. The
outcome its `downloadFirmware` promise will eventually resolve with is part
of the job's environment and travels with the continuation. -/
inductive JobCont where
  /-- Invocation not yet started (entry of `handleOTAUpdate`). -/
  | start (version url : String) (download : Except String Unit)
  /-- Suspended at `await downloadFirmware`; the job is in its Downloading
  phase. -/
  | afterDownload (version : String) (download : Except String Unit)
  /-- Suspended at `await installFirmware` (Installing phase). -/
  | afterInstall (version : String)
  /-- Invocation returned. -/
  | finished
  deriving Repr

/-- Run one atomic segment of an in-flight `handleOTAUpdate` invocation:
from its current continuation to its next suspension point (or return).
Returns the successor device state, the next continuation, and the status
reports issued by the segment. -/
def otaStep (d : SimulatedDevice) :
    JobCont → SimulatedDevice × JobCont × List StatusReport
  | .start version _url download =>
      if version = d.currentFirmwareVersion then
        (d, .finished, [])
      else
        (d, .afterDownload version download,
          [⟨"downloading", some version, none⟩])
  | .afterDownload version (.ok _) =>
      (d, .afterInstall version, [⟨"installing", some version, none⟩])
  | .afterDownload version (.error e) =>
      ({ d with errorCount := d.errorCount + 1 }, .finished,
        [⟨"failed", some version, some e⟩])
  | .afterInstall version =>
      (installFirmware d version, .finished,
        [⟨"completed", some version, none⟩])
  | .finished => (d, .finished, [])

/-- Interleave two `handleOTAUpdate` invocations under an explicit schedule:
`false` runs the next segment of the first job, `true` of the second, as the
event loop would. Returns the final device state, both final continuations,
and the merged trace of status reports tagged by job. -/
def runTwo (d : SimulatedDevice) (j1 j2 : JobCont) :
    List Bool → SimulatedDevice × JobCont × JobCont × List (Bool × StatusReport)
  | [] => (d, j1, j2, [])
  | b :: rest =>
      if b then
        let s := otaStep d j2
        let r := runTwo s.1 j1 s.2.1 rest
        (r.1, r.2.1, r.2.2.1, s.2.2.map (fun rep => (true, rep)) ++ r.2.2.2)
      else
        let s := otaStep d j1
        let r := runTwo s.1 s.2.1 j2 rest
        (r.1, r.2.1, r.2.2.1, s.2.2.map (fun rep => (false, rep)) ++ r.2.2.2)

/-! ## Connectivity-gated sends -/

/-- One call to `SimulatedDevice.sendTelemetry()`. `payload` stands for the
`generateTelemetry()` JSON (random sampling is out of scope and passed in);
`sendErr` is the error the `client.sendEvent` callback fires with, if any.
Returns the successor state and the messages handed to `client.sendEvent`. -/
def sendTelemetry (d : SimulatedDevice) (payload : String)
    (sendErr : Option String) : SimulatedDevice × List String :=
  if !d.isConnected then
    -- if (!this.isConnected) return;
    (d, [])
  else
    match sendErr with
    | some _ => ({ d with errorCount := d.errorCount + 1 }, [payload])
    | none => ({ d with telemetryCount := d.telemetryCount + 1 }, [payload])

/-- One call to `SimulatedDevice.sendFirmwareStatus(status, target, error)`.
Returns the successor state and the status messages handed to
`client.sendEvent`. -/
def sendFirmwareStatusCall (d : SimulatedDevice) (rep : StatusReport)
    (sendErr : Option String) : SimulatedDevice × List StatusReport :=
  if !d.isConnected then
    -- if (!this.isConnected) return;
    (d, [])
  else
    match sendErr with
    | some _ => ({ d with errorCount := d.errorCount + 1 }, [rep])
    | none => (d, [rep])

/-! ## Fleet shutdown timing

Closes are modelled by their settle times in milliseconds: `some t` means
this device's `client.close` callback fires `t` ms after shutdown begins,
`none` means it never fires. The second component of each pair records
whether the close succeeded; `Promise.allSettled`-style waiting must not
consult it. -/

/-- The time at which `Promise.allSettled`/`Promise.all` over the close
promises resolves: all closes run concurrently, so it is the maximum settle
time — `none` (never) as soon as one close never settles. -/
def allSettledTime : List (Option Nat) → Option Nat
  | [] => some 0
  | t :: ts =>
      match t, allSettledTime ts with
      | some a, some b => some (max a b)
      | _, _ => none

/-- The forced-exit fallback delay of `gracefulShutdown`: 10 seconds. -/
def FORCE_EXIT_MS : Nat := 10000

/-- Exit behaviour of `gracefulShutdown` (MQTT fleet variant): it races
`Promise.allSettled(shutdownPromises).then(() => process.exit(0))` against
`setTimeout(() => process.exit(1), 10000)`. Returns `(exit code, exit time)`
— whichever callback fires first terminates the process. -/
def gracefulShutdownExit (ts : List (Option Nat)) : Nat × Nat :=
  match allSettledTime ts with
  | some T => if T < FORCE_EXIT_MS then (0, T) else (1, FORCE_EXIT_MS)
  | none => (1, FORCE_EXIT_MS)

/-- `gracefulShutdownExit` over closes carrying their success flag: the
fan-in waits for settlement only, so only the times are consulted. -/
def gracefulShutdownExitEv (closes : List (Option Nat × Bool)) : Nat × Nat :=
  gracefulShutdownExit (closes.map Prod.fst)

/-- Exit behaviour of `MultiDeviceSimulator.shutdown` plus its SIGINT
handler (`multi-device-simulator.js`): `await Promise.all(shutdownPromises)`
(each wrapped in `.catch`, so a failed close still settles) followed by
`process.exit(0)` — with no timeout racing it. `none`: the process never
exits. -/
def multiDeviceShutdownExit (closes : List (Option Nat × Bool)) :
    Option (Nat × Nat) :=
  (allSettledTime (closes.map Prod.fst)).map (fun T => (0, T))

/-! ## DPS assignment polling (`pollDPSAssignment`, `esp32Sim/azure_helper.cpp`)

Each poll attempt delays `pollInterval` (3000 ms), issues the
operation-status GET authenticated with the registration SAS token, and
examines the response. The environment is a function from attempt index to
the response that attempt receives. -/

/-- The parsed JSON body of a poll response: the `status` field, and the
`registrationState.assignedHub` / `registrationState.deviceId` fields read
when `status` is `assigned`. -/
structure DpsBody where
  status : String
  assignedHub : String
  assignedDeviceId : String
  deriving DecidableEq, Repr

/-- One poll response: its HTTP code and its body (`none` when
`deserializeJson` fails). -/
structure PollResponse where
  httpCode : Nat
  body : Option DpsBody
  deriving DecidableEq, Repr

/-- The result the polling loop terminates with: assignment (recording the
assigned hub and device id), a `failed` status, or exhaustion of the
attempt bound ("DPS provisioning timed out" — the ProvisioningTimeout
outcome). -/
inductive DpsOutcome where
  | assignedTo (hub devId : String)
  | provFailed
  | timedOut
  deriving DecidableEq, Repr

/-- `const int maxRetries = 20`. -/
def maxRetries : Nat := 20

/-- `const int pollInterval = 3000` (milliseconds). -/
def pollIntervalMs : Nat := 3000

/-- `r` is a well-formed `assigning` response: HTTP 200 and a parsed body
whose `status` is `"assigning"` (the loop continues past it). -/
def isAssigningB (r : PollResponse) : Bool :=
  r.httpCode == 200 &&
    (match r.body with
     | some b => b.status == "assigning"
     | none => false)

/-- The body of the `for (attempt = 0; attempt < maxRetries; attempt++)`
loop of `pollDPSAssignment`, with the remaining iteration budget explicit.
Each iteration first waits `pollInterval` ms, then polls; an HTTP failure or
a JSON parse failure only consumes the attempt. Returns the outcome, the
number of polls performed, and the total time spent in `delay`. -/
def pollLoop (responses : Nat → PollResponse) :
    Nat → Nat → Nat → DpsOutcome × Nat × Nat
  | attempt, elapsed, 0 => (.timedOut, attempt, elapsed)
  | attempt, elapsed, remaining + 1 =>
      let elapsed := elapsed + pollIntervalMs
      let r := responses attempt
      if r.httpCode = 200 then
        match r.body with
        | some b =>
            if b.status = "assigned" then
              (.assignedTo b.assignedHub b.assignedDeviceId, attempt + 1, elapsed)
            else if b.status = "failed" then
              (.provFailed, attempt + 1, elapsed)
            else
              pollLoop responses (attempt + 1) elapsed remaining
        | none => pollLoop responses (attempt + 1) elapsed remaining
      else
        pollLoop responses (attempt + 1) elapsed remaining

/-- `pollDPSAssignment()`: run the polling loop from attempt 0 with the
fixed budget of `maxRetries` attempts. -/
def pollDPSAssignment (responses : Nat → PollResponse) :
    DpsOutcome × Nat × Nat :=
  pollLoop responses 0 0 maxRetries

/-! ## SAS-token expiry bookkeeping (`azureSASTokenGenerator`)

Only the expiry arithmetic is embedded: the credential-string assembly
(resource-scoped signing string, HMAC, URL-encoding) is opaque to every
claim about expiry. `tokenExpiry` is a `uint32_t`, kept as a `Nat` below
`UINT32_MOD`; `time(NULL)` is passed in as `now`. -/

/-- The expiry state of one `azureSASTokenGenerator`. Both constructors
initialize `tokenExpiry(0)`. -/
structure azureSASTokenGenerator where
  tokenExpiry : Nat
  deriving DecidableEq, Repr

/-- A freshly constructed generator, before any `generateSASToken` call:
`tokenExpiry = 0`. -/
def freshGenerator : azureSASTokenGenerator := ⟨0⟩

/-- `generateSASToken(expiry)`: a zero argument defaults to
`time(NULL) + 3600`; the chosen value is stored into `tokenExpiry` (a
`uint32_t`, hence the truncation). -/
def generateSASToken (g : azureSASTokenGenerator) (now expiry : Nat) :
    azureSASTokenGenerator :=
  let e := if expiry = 0 then w32 (now + 3600) else w32 expiry
  { g with tokenExpiry := e }

/-- `IsExpired()`: `return time(NULL) >= (tokenExpiry - 300)`. The
subtraction is `uint32_t` arithmetic (`300` is promoted to unsigned), so it
wraps modulo `2 ^ 32`; the comparison then happens at the width of
`time_t`. -/
def IsExpired (g : azureSASTokenGenerator) (now : Nat) : Bool :=
  (g.tokenExpiry + (UINT32_MOD - 300)) % UINT32_MOD ≤ now

/-! ## SHA-256 (FIPS 180-4)

Executable model of the hash both key-derivation variants delegate to
(Node `crypto.createHmac('sha256', ...)`, mbedtls `MBEDTLS_MD_SHA256`).
Bytes are `Nat` below 256, words are `Nat` below `2 ^ 32`. -/

/-- Right rotation of a 32-bit word. -/
def rotr32 (n x : Nat) : Nat := w32 ((x >>> n) ||| (x <<< (32 - n)))

/-- Bitwise complement of a 32-bit word. -/
def not32 (x : Nat) : Nat := x ^^^ 4294967295

/-- `Ch(x, y, z)`. -/
def chF (x y z : Nat) : Nat := (x &&& y) ^^^ (not32 x &&& z)

/-- `Maj(x, y, z)`. -/
def majF (x y z : Nat) : Nat := (x &&& y) ^^^ (x &&& z) ^^^ (y &&& z)

/-- `Σ₀`. -/
def bigSigma0 (x : Nat) : Nat := rotr32 2 x ^^^ rotr32 13 x ^^^ rotr32 22 x

/-- `Σ₁`. -/
def bigSigma1 (x : Nat) : Nat := rotr32 6 x ^^^ rotr32 11 x ^^^ rotr32 25 x

/-- `σ₀`. -/
def smallSigma0 (x : Nat) : Nat := rotr32 7 x ^^^ rotr32 18 x ^^^ (x >>> 3)

/-- `σ₁`. -/
def smallSigma1 (x : Nat) : Nat := rotr32 17 x ^^^ rotr32 19 x ^^^ (x >>> 10)

/-- The 64 SHA-256 round constants of FIPS 180-4 (written in decimal). -/
def K256 : List Nat :=
  [1116352408, 1899447441, 3049323471, 3921009573,
   961987163, 1508970993, 2453635748, 2870763221,
   3624381080, 310598401, 607225278, 1426881987,
   1925078388, 2162078206, 2614888103, 3248222580,
   3835390401, 4022224774, 264347078, 604807628,
   770255983, 1249150122, 1555081692, 1996064986,
   2554220882, 2821834349, 2952996808, 3210313671,
   3336571891, 3584528711, 113926993, 338241895,
   666307205, 773529912, 1294757372, 1396182291,
   1695183700, 1986661051, 2177026350, 2456956037,
   2730485921, 2820302411, 3259730800, 3345764771,
   3516065817, 3600352804, 4094571909, 275423344,
   430227734, 506948616, 659060556, 883997877,
   958139571, 1322822218, 1537002063, 1747873779,
   1955562222, 2024104815, 2227730452, 2361852424,
   2428436474, 2756734187, 3204031479, 3329325298]

/-- The SHA-256 working state: eight 32-bit words. -/
structure Sha256State where
  a : Nat
  b : Nat
  c : Nat
  d : Nat
  e : Nat
  f : Nat
  g : Nat
  h : Nat
  deriving DecidableEq, Repr

/-- The SHA-256 initial hash value of FIPS 180-4 (written in decimal). -/
def initialSha256State : Sha256State :=
  ⟨1779033703, 3144134277, 1013904242, 2773480762,
   1359893119, 2600822924, 528734635, 1541459225⟩

/-- One compression round with round constant `k` and schedule word `w`. -/
def sha256Round (s : Sha256State) (k w : Nat) : Sha256State :=
  let t1 := w32 (s.h + bigSigma1 s.e + chF s.e s.f s.g + k + w)
  let t2 := w32 (bigSigma0 s.a + majF s.a s.b s.c)
  ⟨w32 (t1 + t2), s.a, s.b, s.c, w32 (s.d + t1), s.e, s.f, s.g⟩

/-- Field-wise modular addition of two states. -/
def addStates (x y : Sha256State) : Sha256State :=
  ⟨w32 (x.a + y.a), w32 (x.b + y.b), w32 (x.c + y.c), w32 (x.d + y.d),
   w32 (x.e + y.e), w32 (x.f + y.f), w32 (x.g + y.g), w32 (x.h + y.h)⟩

/-- Big-endian 32-bit words from a byte list (4 bytes per word). -/
def toWordsBE : List Nat → List Nat
  | b0 :: b1 :: b2 :: b3 :: rest =>
      (b0 * 16777216 + b1 * 65536 + b2 * 256 + b3) :: toWordsBE rest
  | _ => []

/-- Extend the message schedule by `n` further words; `acc` holds the words
produced so far, most recent first. -/
def scheduleExtend : Nat → List Nat → List Nat
  | 0, acc => acc.reverse
  | n + 1, acc =>
      let x := w32 (smallSigma1 (acc.getD 1 0) + acc.getD 6 0 +
                    smallSigma0 (acc.getD 14 0) + acc.getD 15 0)
      scheduleExtend n (x :: acc)

/-- The 64-word message schedule of one block (given as its 16 words). -/
def messageSchedule (w16 : List Nat) : List Nat :=
  scheduleExtend 48 w16.reverse

/-- Compress one 64-byte block into the state. -/
def compressBlock (s : Sha256State) (block : List Nat) : Sha256State :=
  let w := messageSchedule (toWordsBE block)
  addStates s ((K256.zip w).foldl (fun st p => sha256Round st p.1 p.2) s)

/-- Split a byte list into 64-byte blocks (fuel-driven so the definition
stays structurally recursive and kernel-reducible). -/
def chunk64Go : Nat → List Nat → List (List Nat)
  | 0, _ => []
  | _, [] => []
  | fuel + 1, x :: xs => ((x :: xs).take 64) :: chunk64Go fuel ((x :: xs).drop 64)

/-- Split a byte list into 64-byte blocks. -/
def chunk64 (l : List Nat) : List (List Nat) := chunk64Go l.length l

/-- The 8-byte big-endian encoding of `n`. -/
def lenBE8 (n : Nat) : List Nat :=
  [(n >>> 56) &&& 255, (n >>> 48) &&& 255, (n >>> 40) &&& 255,
   (n >>> 32) &&& 255, (n >>> 24) &&& 255, (n >>> 16) &&& 255,
   (n >>> 8) &&& 255, n &&& 255]

/-- SHA-256 padding for a message of `l` bytes: `0x80`, zeros to 56 mod 64,
then the bit length. -/
def sha256Pad (l : Nat) : List Nat :=
  0x80 :: List.replicate ((120 - ((l + 1) % 64)) % 64) 0 ++ lenBE8 (8 * l)

/-- The 4-byte big-endian encoding of a 32-bit word. -/
def be4 (n : Nat) : List Nat :=
  [(n >>> 24) &&& 255, (n >>> 16) &&& 255, (n >>> 8) &&& 255, n &&& 255]

/-- The 32-byte digest read out of a final state. -/
def digestBytes (s : Sha256State) : List Nat :=
  be4 s.a ++ be4 s.b ++ be4 s.c ++ be4 s.d ++
  be4 s.e ++ be4 s.f ++ be4 s.g ++ be4 s.h

/-- SHA-256 of a byte list. -/
def sha256 (msg : List Nat) : List Nat :=
  digestBytes ((chunk64 (msg ++ sha256Pad msg.length)).foldl compressBlock
    initialSha256State)

/-- HMAC-SHA256 (RFC 2104): hash an over-long key, zero-pad to the 64-byte
block size, then nested hashing under the inner/outer pads. -/
def hmacSha256 (key msg : List Nat) : List Nat :=
  let k0 := if 64 < key.length then sha256 key else key
  let kp := k0 ++ List.replicate (64 - k0.length) 0
  sha256 ((kp.map (fun b => b ^^^ 0x5c)) ++
    sha256 ((kp.map (fun b => b ^^^ 0x36)) ++ msg))

/-! ## UTF-8 and base64 -/

/-- UTF-8 encoding of one code point. -/
def utf8EncodeChar (n : Nat) : List Nat :=
  if n < 128 then [n]
  else if n < 2048 then [192 + n / 64, 128 + n % 64]
  else if n < 65536 then
    [224 + n / 4096, 128 + (n / 64) % 64, 128 + n % 64]
  else
    [240 + n / 262144, 128 + (n / 4096) % 64, 128 + (n / 64) % 64,
     128 + n % 64]

/-- The UTF-8 bytes of a string (`hmac.update(deviceId)` hashes exactly
these). -/
def utf8Bytes (s : String) : List Nat :=
  s.data.foldr (fun c acc => utf8EncodeChar c.toNat ++ acc) []

/-- The standard base64 alphabet. -/
def b64Alphabet : List Char :=
  "ABCDEFGHIJKLMNOPQRSTUVWXYZabcdefghijklmnopqrstuvwxyz0123456789+/".data

/-- The alphabet character of a sextet. -/
def b64Char (n : Nat) : Char := b64Alphabet.getD n '?'

/-- The sextet of an alphabet character, `none` for any other character. -/
def b64DecVal (c : Char) : Option Nat :=
  let n := c.toNat
  if 65 ≤ n ∧ n ≤ 90 then some (n - 65)
  else if 97 ≤ n ∧ n ≤ 122 then some (n - 71)
  else if 48 ≤ n ∧ n ≤ 57 then some (n + 4)
  else if n = 43 then some 62
  else if n = 47 then some 63
  else none

/-- Standard base64 encoding of a byte list, with `=` padding. -/
def base64EncodeGo : List Nat → List Char
  | b0 :: b1 :: b2 :: rest =>
      b64Char (b0 / 4) :: b64Char ((b0 % 4) * 16 + b1 / 16) ::
      b64Char ((b1 % 16) * 4 + b2 / 64) :: b64Char (b2 % 64) ::
      base64EncodeGo rest
  | [b0, b1] =>
      [b64Char (b0 / 4), b64Char ((b0 % 4) * 16 + b1 / 16),
       b64Char ((b1 % 16) * 4), '=']
  | [b0] => [b64Char (b0 / 4), b64Char ((b0 % 4) * 16), '=', '=']
  | [] => []

/-- Base64 encoding as a string (`hmac.digest('base64')`,
`mbedtls_base64_encode`). -/
def base64Encode (bs : List Nat) : String := ⟨base64EncodeGo bs⟩

/-- Reassemble bytes from a list of sextets: complete groups of four give
three bytes; a trailing group of three gives two, of two gives one, a lone
sextet is dropped. -/
def decodeSextets : List Nat → List Nat
  | v0 :: v1 :: v2 :: v3 :: rest =>
      (v0 * 4 + v1 / 16) :: ((v1 % 16) * 16 + v2 / 4) ::
      ((v2 % 4) * 64 + v3) :: decodeSextets rest
  | [v0, v1, v2] => [v0 * 4 + v1 / 16, (v1 % 16) * 16 + v2 / 4]
  | [v0, v1] => [v0 * 4 + v1 / 16]
  | _ => []

/-- Model of Node's `Buffer.from(s, 'base64')`: the decoder is forgiving —
it reads up to the first `=`, silently discards every character outside the
base64 alphabet, and decodes whatever sextets remain. It never throws. -/
def nodeBase64Decode (s : String) : List Nat :=
  decodeSextets ((s.data.takeWhile (fun c => c != '=')).filterMap b64DecVal)

/-- Model of `mbedtls_base64_decode`'s accept/reject behaviour: strict
base64 — at most two `=` of padding at the very end, every other character
from the alphabet, total length a multiple of four; anything else is
`MBEDTLS_ERR_BASE64_INVALID_CHARACTER` (`none`). -/
def mbedtlsBase64Decode (s : String) : Option (List Nat) :=
  let rev := s.data.reverse
  let pads := (rev.takeWhile (fun c => c == '=')).length
  let body := (rev.drop pads).reverse
  if 2 < pads then none
  else if (body.length + pads) % 4 ≠ 0 then none
  else if body.all (fun c => (b64DecVal c).isSome) then
    some (decodeSextets (body.filterMap b64DecVal))
  else none

/-! ## Key derivation (`deriveDeviceKey`)

The Node variant (`multi-device-simulator.js` lines 31–35, and verbatim
copies in `DPS_iotHub_sim.js` and the MQTT fleet file):

```js
const hmac = crypto.createHmac('sha256', Buffer.from(groupKey, 'base64'));
hmac.update(deviceId);
return hmac.digest('base64');
```

The incremental `createHmac`/`update`/`digest` interface of Node's crypto
module is embedded as an explicit handle so the only state the function
touches is visible and local. -/

/-- A Node `Hmac` object: the MAC key and the data accumulated so far. -/
structure HmacHandle where
  key : List Nat
  data : List Nat
  deriving DecidableEq, Repr

/-- `crypto.createHmac('sha256', key)`. -/
def cryptoCreateHmac (key : List Nat) : HmacHandle := ⟨key, []⟩

/-- `hmac.update(data)`: append to the accumulated input. -/
def HmacHandle.update (hh : HmacHandle) (data : List Nat) : HmacHandle :=
  ⟨hh.key, hh.data ++ data⟩

/-- `hmac.digest()`: the HMAC-SHA256 of the accumulated input. -/
def HmacHandle.digest (hh : HmacHandle) : List Nat :=
  hmacSha256 hh.key hh.data

/-- `deriveDeviceKey(groupKey, deviceId)`, Node variant. Total: neither
`Buffer.from(_, 'base64')` nor `createHmac` can throw here (the forgiving
decoder accepts every string, and zero-length HMAC keys are legal). -/
def deriveDeviceKey (groupKey deviceId : String) : String :=
  let hmac := cryptoCreateHmac (nodeBase64Decode groupKey)
  let hmac := hmac.update (utf8Bytes deviceId)
  base64Encode hmac.digest

/-- `deriveDeviceKey(enrollmentGroupKey, deviceId)`, ESP32 variant
(`azure_helper.cpp` lines 219–260): decode the group key with
`mbedtls_base64_decode` into a 64-byte buffer — an invalid character or a
decoded length above 64 makes `decodeResult != 0` and the function returns
the empty `String()`, modelled as `none` — then HMAC-SHA256 and re-encode
(a 32-byte digest always fits the 64-byte output buffer). -/
def deriveDeviceKeyEsp32 (enrollmentGroupKey deviceId : String) :
    Option String :=
  match mbedtlsBase64Decode enrollmentGroupKey with
  | none => none
  | some keyBin =>
      if 64 < keyBin.length then none
      else some (base64Encode (hmacSha256 keyBin (utf8Bytes deviceId)))

/-- Modelled from the spec's words (§4.1): "Decodes the group key from
base64, computes HMAC-SHA256 over the UTF-8 bytes of `deviceId` using the
decoded key as the MAC key, re-encodes the digest as base64." Stated as a
one-shot composition, to be compared with the implementation above. -/
def deriveDeviceKeySpec (groupKey deviceId : String) : String :=
  base64Encode (hmacSha256 (nodeBase64Decode groupKey) (utf8Bytes deviceId))

/-! # Theorems -/

/-! ## C1 — OTA status sequence for a differing target version -/

/-- **C1.** For every OTA update request whose `targetVersion` differs from
the device's `currentVersion`, the sequence of firmware statuses reported by
`handleOTAUpdate` is exactly `[downloading, installing, completed]` (when
the download, and the never-throwing simulated install, succeed) or
`[downloading, failed]` (when the download step throws); in particular
`installing` is never reported before `downloading` and `completed` is never
reported after `failed` for the same job. -/
theorem ota_status_sequence (d : SimulatedDevice) (version url : String)
    (download : Except String Unit)
    (h : version ≠ d.currentFirmwareVersion) :
    ((handleOTAUpdate d version url download).2.1.map StatusReport.status =
        ["downloading", "installing", "completed"] ∨
      (handleOTAUpdate d version url download).2.1.map StatusReport.status =
        ["downloading", "failed"])
    ∧ (∀ u, download = .ok u →
        (handleOTAUpdate d version url download).2.1.map StatusReport.status =
          ["downloading", "installing", "completed"])
    ∧ (∀ e, download = .error e →
        (handleOTAUpdate d version url download).2.1.map StatusReport.status =
          ["downloading", "failed"]) := by
  unfold handleOTAUpdate
  rw [if_neg h]
  cases download <;> simp

/-- Witness for C1: on a connected `1.0.0` device, a request for `2.0.0`
with a successful download reports exactly
`[downloading, installing, completed]`. -/
theorem ota_status_sequence_witness :
    "2.0.0" ≠ dev0.currentFirmwareVersion ∧
      (handleOTAUpdate dev0 "2.0.0" "u" (Except.ok ())).2.1.map
          StatusReport.status =
        ["downloading", "installing", "completed"] :=
  ⟨by decide,
    (ota_status_sequence dev0 "2.0.0" "u" (Except.ok ()) (by decide)).2.1
      () rfl⟩

/-! ## C4 — OTA request with an equal target version -/

/-- **C4 counterexample.** In `SimulatedDevice.handleOTAUpdate` of
`multi-device-simulator.js` (a claimed source of C4), an equal-version
request logs and returns without calling `sendFirmwareStatus` at all: the
reported status list is empty, not `[current]`. -/
theorem ota_equal_version_counterexample :
    (handleOTAUpdate dev0 "1.0.0" "u" (Except.ok ())).2.1 = [] ∧
      (handleOTAUpdate dev0 "1.0.0" "u" (Except.ok ())).2.1.map
          StatusReport.status ≠ ["current"] := by
  constructor <;> decide

/-- **C4 amended.** For every OTA request with `targetVersion` equal to the
device's `currentVersion`, the job stays Idle: no download is started, the
device state (in particular `currentFirmwareVersion`) is unchanged — and the
HTTP variants (`multi-device-simulator.js`, `DPS_iotHub_sim.js`) report no
status at all, while the MQTT fleet variant reports exactly one status,
`current`. -/
theorem ota_equal_version_amended (d : SimulatedDevice) (version url : String)
    (download : Except String Unit)
    (h : version = d.currentFirmwareVersion) :
    handleOTAUpdate d version url download = (d, [], []) ∧
      handleOTAUpdateMqtt d version url download =
        (d, [⟨"current", some version, none⟩], []) := by
  unfold handleOTAUpdate handleOTAUpdateMqtt
  rw [if_pos h, if_pos h]
  exact ⟨rfl, rfl⟩

/-- Witness for the amended C4: a request for the version already running
leaves the device untouched, starts no download, and reports nothing (HTTP)
resp. exactly `current` (MQTT). -/
theorem ota_equal_version_amended_witness :
    handleOTAUpdate dev0 "1.0.0" "u" (Except.error "boom") = (dev0, [], []) ∧
      handleOTAUpdateMqtt dev0 "1.0.0" "u" (Except.error "boom") =
        (dev0, [⟨"current", some "1.0.0", none⟩], []) :=
  ota_equal_version_amended dev0 "1.0.0" "u" (Except.error "boom") (by decide)

/-! ## C6 — no job-in-progress rejection -/

/-- **C6 counterexample.** Two `handleOTAUpdate` invocations interleaved on
one device: the second request (target `3.0.0`) is issued while the first
job (target `2.0.0`) is suspended in its Downloading phase. The trace shows
the second request reporting `downloading` immediately — it is neither
rejected with a `JobInProgress` error (no such error exists in the code)
nor queued: both jobs run to `completed` concurrently, so two jobs are
active on the same device at once. -/
theorem ota_concurrent_not_rejected :
    (runTwo dev0 (.start "2.0.0" "u1" (.ok ())) (.start "3.0.0" "u2" (.ok ()))
          [false, true, false, true, false, true]).2.2.2.map
        (fun p => (p.1, p.2.status)) =
      [(false, "downloading"), (true, "downloading"), (false, "installing"),
        (true, "installing"), (false, "completed"), (true, "completed")] ∧
      (runTwo dev0 (.start "2.0.0" "u1" (.ok ()))
          (.start "3.0.0" "u2" (.ok ()))
          [false, true, false, true, false, true]).1.currentFirmwareVersion =
        "3.0.0" := by
  constructor <;> decide

/-- **C6 amended.** `handleOTAUpdate` performs no job-in-progress check:
the only guard is version equality, and the device state carries no
active-job flag for it to consult. Every request whose target version
differs from `currentFirmwareVersion` unconditionally starts its download
and reports `downloading` — in particular one issued while another job is
in its Downloading or Installing phase, which therefore runs concurrently
instead of being rejected with `JobInProgress`. -/
theorem ota_no_job_guard (d : SimulatedDevice) (version url : String)
    (download : Except String Unit)
    (h : version ≠ d.currentFirmwareVersion) :
    otaStep d (.start version url download) =
      (d, .afterDownload version download,
        [⟨"downloading", some version, none⟩]) := by
  simp only [otaStep]
  rw [if_neg h]

/-- Witness for the amended C6: with the `2.0.0` job mid-download, a
`3.0.0` request still starts. -/
theorem ota_no_job_guard_witness :
    otaStep dev0 (.start "3.0.0" "u2" (.ok ())) =
      (dev0, .afterDownload "3.0.0" (.ok ()),
        [⟨"downloading", some "3.0.0", none⟩]) :=
  ota_no_job_guard dev0 "3.0.0" "u2" (.ok ()) (by decide)

/-! ## C9 — sends while disconnected -/

/-- **C9 counterexample.** A telemetry send and a firmware-status send
attempted while `isConnected = false` leave the error counter at its old
value: it is *not* incremented, contradicting the claim. -/
theorem send_disconnected_no_increment :
    (sendTelemetry devDisconnected "payload" none).1.errorCount ≠
        devDisconnected.errorCount + 1 ∧
      (sendFirmwareStatusCall devDisconnected ⟨"downloading", none, none⟩
            none).1.errorCount ≠
        devDisconnected.errorCount + 1 := by
  constructor <;> decide

/-- **C9 amended.** For every telemetry or firmware-status send attempted
while the device's `isConnected` flag is false, the send silently no-ops:
nothing is handed to `client.sendEvent`, no exception is thrown (the
functions are total), and the entire device state — error counter included —
is unchanged. -/
theorem send_disconnected_noop (d : SimulatedDevice) (payload : String)
    (rep : StatusReport) (sendErr : Option String)
    (h : d.isConnected = false) :
    sendTelemetry d payload sendErr = (d, []) ∧
      sendFirmwareStatusCall d rep sendErr = (d, []) := by
  unfold sendTelemetry sendFirmwareStatusCall
  rw [h]
  exact ⟨rfl, rfl⟩

/-- Witness for the amended C9: the disconnected device is returned
verbatim and nothing is transmitted. -/
theorem send_disconnected_noop_witness :
    sendTelemetry devDisconnected "payload" none = (devDisconnected, []) ∧
      sendFirmwareStatusCall devDisconnected ⟨"installing", none, none⟩ none =
        (devDisconnected, []) :=
  send_disconnected_noop devDisconnected "payload"
    ⟨"installing", none, none⟩ none (by decide)

/-! ## C7 — shutdown fan-in and forced exit -/

/-- **C7 counterexample.** `MultiDeviceSimulator.shutdown`
(`multi-device-simulator.js`, a claimed source of C7) has no forced-exit
timer: with a two-device fleet whose second close never settles, the
`await Promise.all` never resolves and the process never exits — there is
no 10-second bound. -/
theorem multi_shutdown_hangs :
    multiDeviceShutdownExit [(some 5, true), (none, true)] = none := by
  decide

/-- **C7 amended.** The MQTT fleet variant's `gracefulShutdown` fans out
`close()` to every device concurrently, fan-ins with `Promise.allSettled`
(the exit point depends only on settle times, never on whether an
individual close failed), and races the fan-in against a 10-second forced
`process.exit(1)`: the process always terminates within `FORCE_EXIT_MS`,
and if some close never settles it force-exits exactly at the bound. The
HTTP `MultiDeviceSimulator.shutdown`, by contrast, waits for all closes
with no timeout (see the counterexample). -/
theorem graceful_shutdown_bounded (closes : List (Option Nat × Bool)) :
    (gracefulShutdownExitEv closes).2 ≤ FORCE_EXIT_MS ∧
      (allSettledTime (closes.map Prod.fst) = none →
        gracefulShutdownExitEv closes = (1, FORCE_EXIT_MS)) ∧
      ∀ other : List (Option Nat × Bool),
        other.map Prod.fst = closes.map Prod.fst →
        gracefulShutdownExitEv other = gracefulShutdownExitEv closes := by
  refine ⟨?_, fun hnone => ?_, fun other hmap => ?_⟩
  · unfold gracefulShutdownExitEv gracefulShutdownExit
    cases allSettledTime (closes.map Prod.fst) with
    | none => exact Nat.le_refl _
    | some T =>
        dsimp only
        split
        · omega
        · exact Nat.le_refl _
  · unfold gracefulShutdownExitEv gracefulShutdownExit
    rw [hnone]
  · unfold gracefulShutdownExitEv
    rw [hmap]

/-- Witness for the amended C7: one device whose close settles at 5 ms and
one whose close never settles — the process still exits, with code 1 at the
10-second bound. -/
theorem graceful_shutdown_bounded_witness :
    gracefulShutdownExitEv [(some 5, true), (none, false)] =
      (1, FORCE_EXIT_MS) :=
  (graceful_shutdown_bounded [(some 5, true), (none, false)]).2.1 (by decide)

/-! ## C3 — SAS token expiry test -/

/-- **C3.** For every generated SAS token (each generation site of the
repository passes `expiry = time(NULL) + 3600`, so the stored expiry is
well above the 300-second margin and below `2 ^ 32`), `IsExpired()` at
current time `t` returns true iff `t ≥ expiry − 300`; and immediately after
generating with `expiry = now + 3600`, `IsExpired()` returns false. -/
theorem sas_isExpired_iff (g : azureSASTokenGenerator) (now t expiry : Nat)
    (h1 : 300 ≤ expiry) (h2 : expiry < UINT32_MOD) :
    (IsExpired (generateSASToken g now expiry) t = true ↔
        expiry - 300 ≤ t) ∧
      (now + 3600 < UINT32_MOD →
        IsExpired (generateSASToken g now (now + 3600)) now = false) := by
  have he : expiry ≠ 0 := by omega
  constructor
  · simp only [IsExpired, generateSASToken, w32, UINT32_MOD, if_neg he,
      decide_eq_true_eq]
    unfold UINT32_MOD at h2
    omega
  · intro h3
    have h4 : now + 3600 ≠ 0 := by omega
    simp only [IsExpired, generateSASToken, w32, UINT32_MOD, if_neg h4,
      decide_eq_false_iff_not]
    unfold UINT32_MOD at h3
    omega

/-- Witness for C3: a token generated at `now = 1000000` with expiry
`1003600` is not expired at generation time, and becomes expired exactly
from `1003300 = expiry − 300` on. -/
theorem sas_isExpired_iff_witness :
    IsExpired (generateSASToken freshGenerator 1000000 1003600) 1003300 =
        true ∧
      IsExpired (generateSASToken freshGenerator 1000000 (1000000 + 3600))
          1000000 = false :=
  ⟨(sas_isExpired_iff freshGenerator 1000000 1003300 1003600 (by decide)
        (by decide)).1.mpr (by decide),
    (sas_isExpired_iff freshGenerator 1000000 1003300 1003600 (by decide)
        (by decide)).2 (by decide)⟩

/-! ## C10 — freshly constructed generator -/

/-- **C10 counterexample.** On a freshly constructed generator
(`tokenExpiry = 0`), `IsExpired()` at the (non-negative) current time
1700000000 returns **false**, not true: the unsigned subtraction
`tokenExpiry - 300` wraps to `2 ^ 32 − 300`, which exceeds every realistic
clock value. -/
theorem fresh_token_not_expired_counterexample :
    IsExpired freshGenerator 1700000000 = false := by decide

/-- **C10 amended.** A freshly constructed generator has `tokenExpiry = 0`,
and because `tokenExpiry - 300` is computed in `uint32_t` arithmetic it
wraps to `2 ^ 32 − 300`; hence in the never-generated state `IsExpired()`
returns true iff `now ≥ 2 ^ 32 − 300` — i.e. **false** for every realistic
current time, so the fresh credential reports itself as still valid and
does not force a generation before first use. -/
theorem fresh_token_isExpired_iff (now : Nat) :
    freshGenerator.tokenExpiry = 0 ∧
      (IsExpired freshGenerator now = true ↔ UINT32_MOD - 300 ≤ now) := by
  refine ⟨rfl, ?_⟩
  simp only [IsExpired, freshGenerator, UINT32_MOD, decide_eq_true_eq]

/-! ## C2 — DPS assignment polling -/

/-- Skipping one well-formed `assigning` response costs one attempt and one
`pollInterval` delay. -/
theorem pollLoop_skip (responses : Nat → PollResponse)
    (attempt elapsed rem : Nat)
    (h : isAssigningB (responses attempt) = true) :
    pollLoop responses attempt elapsed (rem + 1) =
      pollLoop responses (attempt + 1) (elapsed + pollIntervalMs) rem := by
  have h' := h
  unfold isAssigningB at h'
  rw [Bool.and_eq_true] at h'
  obtain ⟨hcode, hbody⟩ := h'
  rw [beq_iff_eq] at hcode
  cases hb : (responses attempt).body with
  | none => rw [hb] at hbody; exact absurd hbody (by simp)
  | some b =>
      rw [hb] at hbody
      rw [beq_iff_eq] at hbody
      simp only [pollLoop]
      rw [if_pos hcode, hb]
      dsimp only
      rw [hbody]
      rw [if_neg (by decide), if_neg (by decide)]

/-- A run that sees only well-formed `assigning` responses exhausts the
whole budget and times out. -/
theorem pollLoop_allAssigning (responses : Nat → PollResponse) :
    ∀ (rem attempt elapsed : Nat),
      (∀ i, i < rem → isAssigningB (responses (attempt + i)) = true) →
      pollLoop responses attempt elapsed rem =
        (.timedOut, attempt + rem, elapsed + pollIntervalMs * rem) := by
  intro rem
  induction rem with
  | zero => intro attempt elapsed _; simp [pollLoop]
  | succ n ih =>
      intro attempt elapsed h
      rw [pollLoop_skip responses attempt elapsed n
        (by have := h 0 (by omega); rwa [Nat.add_zero] at this)]
      rw [ih (attempt + 1) (elapsed + pollIntervalMs) (fun i hi => by
        have := h (i + 1) (by omega)
        rwa [show attempt + (i + 1) = attempt + 1 + i from by omega] at this)]
      simp only [Prod.mk.injEq, pollIntervalMs, true_and]
      all_goals omega

/-- A run that sees well-formed `assigning` responses on attempts
`0, …, k-1` and a decisive response on attempt `k < rem` resolves on poll
`k + 1` after `(k + 1) · pollInterval` of delay — with the assignment data
recorded on `assigned`, or the failure outcome on `failed`. -/
theorem pollLoop_resolves (responses : Nat → PollResponse) (k : Nat) :
    ∀ (attempt elapsed rem : Nat), k < rem →
      (∀ i, i < k → isAssigningB (responses (attempt + i)) = true) →
      (responses (attempt + k)).httpCode = 200 →
      ∀ b, (responses (attempt + k)).body = some b →
        (b.status = "assigned" →
          pollLoop responses attempt elapsed rem =
            (.assignedTo b.assignedHub b.assignedDeviceId, attempt + k + 1,
              elapsed + pollIntervalMs * (k + 1))) ∧
        (b.status = "failed" →
          pollLoop responses attempt elapsed rem =
            (.provFailed, attempt + k + 1,
              elapsed + pollIntervalMs * (k + 1))) := by
  induction k with
  | zero =>
      intro attempt elapsed rem hrem _ hcode b hbody
      obtain ⟨r, rfl⟩ : ∃ r, rem = r + 1 := ⟨rem - 1, by omega⟩
      rw [Nat.add_zero] at hcode hbody
      constructor <;> intro hst
      · simp only [pollLoop]
        rw [if_pos hcode, hbody]
        dsimp only
        rw [hst, if_pos rfl]
        simp only [Prod.mk.injEq, pollIntervalMs, true_and]
      · simp only [pollLoop]
        rw [if_pos hcode, hbody]
        dsimp only
        rw [hst]
        rw [if_neg (by decide), if_pos rfl]
        simp only [Prod.mk.injEq, pollIntervalMs, true_and]
  | succ n ih =>
      intro attempt elapsed rem hrem hpre hcode b hbody
      obtain ⟨r, rfl⟩ : ∃ r, rem = r + 1 := ⟨rem - 1, by omega⟩
      rw [pollLoop_skip responses attempt elapsed r
        (by have := hpre 0 (by omega); rwa [Nat.add_zero] at this)]
      have hshift : attempt + 1 + n = attempt + (n + 1) := by omega
      have ihx := ih (attempt + 1) (elapsed + pollIntervalMs) r (by omega)
        (fun i hi => by
          have := hpre (i + 1) (by omega)
          rwa [show attempt + (i + 1) = attempt + 1 + i from by omega] at this)
        (by rwa [hshift]) b (by rwa [hshift])
      constructor <;> intro hst
      · rw [ihx.1 hst]
        simp only [Prod.mk.injEq, pollIntervalMs, true_and]
        all_goals omega
      · rw [ihx.2 hst]
        simp only [Prod.mk.injEq, pollIntervalMs, true_and]
        all_goals omega

/-- **C2.** `pollDPSAssignment` polls at the fixed 3-second interval for at
most `maxRetries = 20` attempts. If the first `k` responses (for any
`k < 20`, in particular `k = 19`) are `assigning` and the response to poll
`k + 1` is `assigned`, the loop records the assigned hub and device id and
resolves on that poll, after `3000 · (k + 1)` ms of delay; a `failed`
response there stops polling immediately with the failure outcome; and if
all 20 polls return `assigning`, the loop stops after exactly 20 polls with
the ProvisioningTimeout outcome. -/
theorem dps_poll_outcomes (responses : Nat → PollResponse) (k : Nat)
    (b : DpsBody) (hk : k < maxRetries)
    (hpre : ∀ i, i < k → isAssigningB (responses i) = true)
    (hcode : (responses k).httpCode = 200)
    (hbody : (responses k).body = some b) :
    (b.status = "assigned" →
      pollDPSAssignment responses =
        (.assignedTo b.assignedHub b.assignedDeviceId, k + 1,
          pollIntervalMs * (k + 1))) ∧
      (b.status = "failed" →
        pollDPSAssignment responses =
          (.provFailed, k + 1, pollIntervalMs * (k + 1))) ∧
      ((∀ i, i < maxRetries → isAssigningB (responses i) = true) →
        pollDPSAssignment responses =
          (.timedOut, maxRetries, pollIntervalMs * maxRetries)) := by
  have hres := pollLoop_resolves responses k 0 0 maxRetries hk
    (by simpa using hpre) (by simpa using hcode) b (by simpa using hbody)
  refine ⟨fun h => ?_, fun h => ?_, fun hall => ?_⟩
  · have := hres.1 h
    simpa [pollDPSAssignment] using this
  · have := hres.2 h
    simpa [pollDPSAssignment] using this
  · have := pollLoop_allAssigning responses maxRetries 0 0
      (by simpa using hall)
    simpa [pollDPSAssignment] using this

/-- The poll-response environment of the C2 witness: 19 `assigning`
responses followed by an `assigned` response on the 20th poll. -/
def respW (i : Nat) : PollResponse :=
  if i < 19 then ⟨200, some ⟨"assigning", "", ""⟩⟩
  else ⟨200, some ⟨"assigned", "hub-1", "dev-001"⟩⟩

/-- Witness for C2: with `assigning` on polls 1–19 and `assigned` on poll
20, the loop resolves to the assignment after exactly 20 polls and
60 seconds of accumulated delay. -/
theorem dps_poll_outcomes_witness :
    pollDPSAssignment respW =
      (.assignedTo "hub-1" "dev-001", 20, pollIntervalMs * 20) :=
  (dps_poll_outcomes respW 19 ⟨"assigned", "hub-1", "dev-001"⟩ (by decide)
      (by decide) (by decide) (by decide)).1 rfl

/-! ## C5 / C8 — key derivation -/

/-- Reading out a digest always yields 32 bytes. -/
theorem digestBytes_length (s : Sha256State) : (digestBytes s).length = 32 := by
  simp [digestBytes, be4]

/-- SHA-256 digests are 32 bytes long. -/
theorem sha256_length (msg : List Nat) : (sha256 msg).length = 32 := by
  simp [sha256, digestBytes_length]

/-- HMAC-SHA256 tags are 32 bytes long. -/
theorem hmacSha256_length (key msg : List Nat) :
    (hmacSha256 key msg).length = 32 := by
  simp [hmacSha256, sha256_length]

/-- Base64 encoding produces four characters per (started) group of three
bytes. -/
theorem base64EncodeGo_length (bs : List Nat) :
    (base64EncodeGo bs).length = ((bs.length + 2) / 3) * 4 := by
  match bs with
  | [] => rfl
  | [b0] => simp [base64EncodeGo]
  | [b0, b1] => simp [base64EncodeGo]
  | b0 :: b1 :: b2 :: rest =>
      have ih := base64EncodeGo_length rest
      simp only [base64EncodeGo, List.length_cons, ih]
      omega

/-- Length of a base64-encoded string. -/
theorem base64Encode_length (bs : List Nat) :
    (base64Encode bs).length = ((bs.length + 2) / 3) * 4 := by
  simp [base64Encode, String.length, base64EncodeGo_length]

/-- The Node `deriveDeviceKey` always returns a 44-character base64 key —
the encoding of a 32-byte HMAC digest — for **every** input string,
including ones that are not valid base64. -/
theorem deriveDeviceKey_length (gk did : String) :
    (deriveDeviceKey gk did).length = 44 := by
  simp [deriveDeviceKey, HmacHandle.digest, HmacHandle.update,
    cryptoCreateHmac, base64Encode_length, hmacSha256_length]

/-- **C5.** `deriveDeviceKey(groupKey, deviceId)` equals the base64
encoding of HMAC-SHA256 computed over the UTF-8 bytes of `deviceId` with
the base64-decoded `groupKey` as the MAC key — the incremental
`createHmac`/`update`/`digest` calls of the Node variant refine the
one-shot composition stated by the spec, and the function is pure: its
value depends only on `(groupKey, deviceId)`, so any two calls yield the
identical key and no state is modified. The ESP32 variant computes the same
composition whenever its strict base64 decode succeeds within its 64-byte
key buffer. -/
theorem deriveDeviceKey_spec_refinement :
    (∀ groupKey deviceId,
      deriveDeviceKey groupKey deviceId =
        deriveDeviceKeySpec groupKey deviceId) ∧
      (∀ groupKey deviceId keyBin,
        mbedtlsBase64Decode groupKey = some keyBin → keyBin.length ≤ 64 →
        deriveDeviceKeyEsp32 groupKey deviceId =
          some (base64Encode (hmacSha256 keyBin (utf8Bytes deviceId)))) := by
  constructor
  · intro gk did
    rfl
  · intro gk did keyBin hdec hlen
    simp only [deriveDeviceKeyEsp32, hdec]
    rw [if_neg (by omega)]

/-- Witness for C5 at the concrete pair `("AAAA", "dev-001")`; the group
key decodes to the three-byte key `[0, 0, 0]`. -/
theorem deriveDeviceKey_spec_refinement_witness :
    deriveDeviceKey "AAAA" "dev-001" = deriveDeviceKeySpec "AAAA" "dev-001" ∧
      deriveDeviceKeyEsp32 "AAAA" "dev-001" =
        some (base64Encode (hmacSha256 [0, 0, 0] (utf8Bytes "dev-001"))) :=
  ⟨deriveDeviceKey_spec_refinement.1 "AAAA" "dev-001",
    deriveDeviceKey_spec_refinement.2 "AAAA" "dev-001" [0, 0, 0] (by decide)
      (by decide)⟩

/-- **C8 counterexample.** `"!!!!"` is not valid base64 (mbedtls rejects
it), yet the Node `deriveDeviceKey` does not fail: `Buffer.from` silently
decodes it to the empty key and a full 44-character base64 key is returned
— no `ConfigurationError` exists in the code. -/
theorem deriveDeviceKey_invalid_returns_key :
    mbedtlsBase64Decode "!!!!" = none ∧
      nodeBase64Decode "!!!!" = [] ∧
      (deriveDeviceKey "!!!!" "dev-001").length = 44 :=
  ⟨by decide, by decide, deriveDeviceKey_length "!!!!" "dev-001"⟩

/-- **C8 amended.** Only the ESP32 variant fails on malformed key material,
and it does so by returning the empty string (modelled `none`), not by
raising a `ConfigurationError`: it fails exactly when
`mbedtls_base64_decode` rejects the group key as invalid base64, or when
the decoded key exceeds its 64-byte buffer. The Node variant never fails:
`Buffer.from(groupKey, 'base64')` accepts every string, silently dropping
invalid characters, and a 44-character key is always produced. -/
theorem deriveDeviceKey_failure_modes :
    (∀ gk did, mbedtlsBase64Decode gk = none →
      deriveDeviceKeyEsp32 gk did = none) ∧
      (∀ gk did keyBin, mbedtlsBase64Decode gk = some keyBin →
        64 < keyBin.length → deriveDeviceKeyEsp32 gk did = none) ∧
      (∀ gk did, (deriveDeviceKey gk did).length = 44) := by
  refine ⟨fun gk did h => ?_, fun gk did keyBin h hl => ?_,
    fun gk did => deriveDeviceKey_length gk did⟩
  · simp only [deriveDeviceKeyEsp32, h]
  · simp only [deriveDeviceKeyEsp32, h]
    rw [if_pos hl]

/-- Witness for the amended C8: an invalid-character key and an over-long
key (92 base64 characters decode to 69 bytes, past the 64-byte buffer) both
make the ESP32 variant fail. -/
theorem deriveDeviceKey_failure_modes_witness :
    deriveDeviceKeyEsp32 "%%" "dev-001" = none ∧
      deriveDeviceKeyEsp32
        "AAAAAAAAAAAAAAAAAAAAAAAAAAAAAAAAAAAAAAAAAAAAAAAAAAAAAAAAAAAAAAAAAAAAAAAAAAAAAAAAAAAAAAAAAAAA"
        "dev-001" = none :=
  ⟨deriveDeviceKey_failure_modes.1 "%%" "dev-001" (by decide),
    deriveDeviceKey_failure_modes.2.1
      "AAAAAAAAAAAAAAAAAAAAAAAAAAAAAAAAAAAAAAAAAAAAAAAAAAAAAAAAAAAAAAAAAAAAAAAAAAAAAAAAAAAAAAAAAAAA"
      "dev-001" (List.replicate 69 0) (by decide) (by decide)⟩

end AzureIoTSim
